import Mathlib

/-!
# Verification of `Documentacion.cpp` (Proyecto-F)

Shallow embedding of the Arduino sketch `src/Documentacion.cpp`: a keypad-gated
environmental monitor.  The mutable globals (`inputPassword`, `attemptCount`,
`currentState`, `stateChangeTime`) become a state record; every handler becomes
a pure function from the old state (plus the sensor/keypad inputs and the
current `millis()` value) to the new state together with the list of side
effects (LCD writes, LED writes, tones, delays) it performs, in order.

Modelling conventions:
* the C++ `String` pin buffer is a `List Char`;
* temperature, humidity and lux readings (C `float`) are modelled as `ℚ`,
  which keeps the threshold comparisons of the source exact and decidable;
* `millis()` is a `Nat` supplied per call; `millis() - stateChangeTime` is
  `Nat` subtraction (the monotonic clock never runs behind a stored
  timestamp within a session, so the `unsigned long` wrap is not exercised);
* the blocking `while (true)` loop of `alarma` is modelled by a fuel-indexed
  search over a stream of readings.
-/

namespace Documentacion

/-- Side effects a handler performs, in source order. -/
inductive Ev where
  | lcdClear : Ev
  | lcdPrintS (s : String) : Ev
  | lcdPrintN (n : Nat) : Ev
  | lcdPrintQ (q : ℚ) : Ev
  | lcdSetCursor (col row : Nat) : Ev
  | digitalWriteEv (pin : Nat) (hi : Bool) : Ev
  | toneEv (freq dur : Nat) : Ev
  | noToneEv : Ev
  | delayEv (ms : Nat) : Ev
  deriving Repr, DecidableEq

/-- `const String CORRECT_PASSWORD = "0690"`. -/
def CORRECT_PASSWORD : List Char := ['0', '6', '9', '0']

/-- `const int MAX_ATTEMPTS = 3`. -/
def MAX_ATTEMPTS : Nat := 3

/-- `const int LED_GREEN_PIN = 9`. -/
def LED_GREEN_PIN : Nat := 9

/-- `const int LED_RED_PIN = 10`. -/
def LED_RED_PIN : Nat := 10

/-- `const int LED_BLUE_PIN = 8`. -/
def LED_BLUE_PIN : Nat := 8

/-- `const int BUZZER_PIN = 6`. -/
def BUZZER_PIN : Nat := 6

/-- The mutable globals of the sketch.  `currentState` keeps the integer
codes of the source: 0 = locked (initial), 1 = monitoreo ambiental,
2 = monitor eventos, 3 = alerta, 4 = alarma, 5 = infrarrojo, 6 = hall. -/
structure Sys where
  inputPassword : List Char
  attemptCount : Nat
  currentState : Nat
  stateChangeTime : Nat
  deriving Repr, DecidableEq

/-- The globals as initialised at the top of the sketch. -/
def sysInit : Sys :=
  { inputPassword := [], attemptCount := 0, currentState := 0, stateChangeTime := 0 }

/-- `getAsterisks`: a string of `length` asterisks. -/
def getAsterisks (length : Nat) : String :=
  String.mk (List.replicate length '*')

/-- Effects of `welcomeTone()`: do-mi-sol, 500 ms each. -/
def welcomeToneEvs : List Ev :=
  [Ev.toneEv 262 500, Ev.delayEv 500, Ev.toneEv 330 500, Ev.delayEv 500,
   Ev.toneEv 392 500, Ev.delayEv 500, Ev.noToneEv]

/-- Effects of `alarmSound()`: 5 repetitions of 1000 Hz / 500 Hz, 250 ms each. -/
def alarmSoundEvs : List Ev :=
  (List.replicate 5 [Ev.toneEv 1000 250, Ev.delayEv 250,
                     Ev.toneEv 500 250, Ev.delayEv 250]).flatten ++ [Ev.noToneEv]

/-- Effects of `reset()` beyond the state change: redisplay the prompt. -/
def resetEvs : List Ev :=
  [Ev.lcdClear, Ev.lcdPrintS "Ingrese la clave:"]

/-- The body of `loop()` for one pressed key (`key` is the char returned by
`keypad.getKey()`; the `if (key)` guard means this is only run when a key was
actually pressed).  `now` is the value `millis()` would return.  Returns the
updated globals and the effects performed. -/
def processKey (now : Nat) (s : Sys) (key : Char) : Sys × List Ev :=
  if key = '#' then
    if s.inputPassword.length = 4 ∧ s.inputPassword = CORRECT_PASSWORD then
      ({ s with currentState := 1, stateChangeTime := now },
       [Ev.lcdClear, Ev.lcdPrintS "Bienvenido", Ev.digitalWriteEv LED_GREEN_PIN true]
         ++ welcomeToneEvs
         ++ [Ev.delayEv 1000, Ev.digitalWriteEv LED_GREEN_PIN false])
    else
      let newCount := s.attemptCount + 1
      let errEvs := [Ev.lcdClear, Ev.lcdPrintS "Error intento ", Ev.lcdPrintN newCount]
      if newCount ≥ MAX_ATTEMPTS then
        ({ s with inputPassword := [], attemptCount := 0 },
         errEvs
           ++ [Ev.lcdClear, Ev.lcdPrintS "Bloqueado"]
           ++ alarmSoundEvs
           ++ [Ev.digitalWriteEv LED_RED_PIN true, Ev.delayEv 2000,
               Ev.digitalWriteEv LED_RED_PIN false]
           ++ resetEvs)
      else
        ({ s with inputPassword := [], attemptCount := newCount }, errEvs)
  else if key = '*' then
    ({ s with inputPassword := [] },
     [Ev.lcdClear, Ev.lcdPrintS "Ingrese la clave:"])
  else
    if s.inputPassword.length < 4 then
      ({ s with inputPassword := s.inputPassword ++ [key] },
       [Ev.lcdSetCursor 0 1, Ev.lcdPrintS (getAsterisks (s.inputPassword.length + 1))])
    else
      (s, [])

/-- Process a sequence of key presses, keeping only the resulting globals. -/
def processKeys (now : Nat) (s : Sys) (ks : List Char) : Sys :=
  ks.foldl (fun st k => (processKey now st k).1) s

/-- One DHT reading: `dht.readHumidity()` / `dht.readTemperature()`,
modelled over `ℚ`. -/
structure Reading where
  t : ℚ
  h : ℚ
  deriving Repr, DecidableEq

/-- `monitoreoAmbiental()` (state 1): out-of-range temperature/humidity goes
straight to state 4 (alarma) with no display write; otherwise, once ≥ 4000 ms
have elapsed, show the reading and go to state 2 (monitor eventos). -/
def monitoreoAmbiental (now : Nat) (r : Reading) (s : Sys) : Sys × List Ev :=
  if r.t < 10 ∨ r.t > 40 ∨ r.h < 5 ∨ r.h > 60 then
    ({ s with currentState := 4, stateChangeTime := now }, [])
  else if now - s.stateChangeTime ≥ 4000 then
    ({ s with currentState := 2, stateChangeTime := now },
     [Ev.lcdClear, Ev.lcdPrintS "Moni Ambiental", Ev.lcdSetCursor 0 1,
      Ev.lcdPrintS "T:", Ev.lcdPrintQ r.t, Ev.lcdPrintS "C H:", Ev.lcdPrintQ r.h])
  else
    (s, [])

/-- `monitorEventos()` (state 2).  The handler first computes `lux` from the
photoresistor sample (a `float` power-law conversion with the external
calibration constants `RL10`/`GAMMA`, which is peripheral arithmetic); the
embedding takes that computed `lux` as the sensor input.  After ≥ 3000 ms it
displays the value and branches: lux > 700 or lux < 200 goes to state 3
(alerta), otherwise back to state 1 (monitoreo ambiental). -/
def monitorEventos (now : Nat) (lux : ℚ) (s : Sys) : Sys × List Ev :=
  if now - s.stateChangeTime ≥ 3000 then
    let evs := [Ev.lcdClear, Ev.lcdPrintS "Moni Eventos", Ev.lcdSetCursor 0 1,
                Ev.lcdPrintS "Luz : ", Ev.lcdPrintQ lux]
    if lux > 700 ∨ lux < 200 then
      ({ s with currentState := 3, stateChangeTime := now }, evs)
    else
      ({ s with currentState := 1, stateChangeTime := now }, evs)
  else
    (s, [])

/-- `alerta()` (state 3): after ≥ 3000 ms, report high/low light (with alarm
tone and blue LED) and return to state 2. -/
def alerta (now : Nat) (lux : ℚ) (s : Sys) : Sys × List Ev :=
  if now - s.stateChangeTime ≥ 3000 then
    let header := [Ev.lcdClear, Ev.lcdPrintS "Alerta!", Ev.lcdSetCursor 0 1]
    let branchEvs :=
      if lux > 700 then
        [Ev.lcdPrintS "Luz: Alta", Ev.digitalWriteEv LED_BLUE_PIN true]
          ++ alarmSoundEvs ++ [Ev.delayEv 1000, Ev.digitalWriteEv LED_BLUE_PIN false]
      else if lux < 200 then
        [Ev.lcdPrintS "Luz: Baja", Ev.digitalWriteEv LED_BLUE_PIN true]
          ++ alarmSoundEvs ++ [Ev.delayEv 1000, Ev.digitalWriteEv LED_BLUE_PIN false]
      else
        []
    ({ s with currentState := 2, stateChangeTime := now }, header ++ branchEvs)
  else
    (s, [])

/-- `monitoreoInfrarrojo()` (state 5): when the proximity pin is HIGH, report
and return to state 2. -/
def monitoreoInfrarrojo (now : Nat) (pinHigh : Bool) (s : Sys) : Sys × List Ev :=
  if pinHigh then
    ({ s with currentState := 2, stateChangeTime := now },
     [Ev.lcdClear, Ev.lcdPrintS "Infrarrojo Activo", Ev.digitalWriteEv LED_BLUE_PIN true]
       ++ alarmSoundEvs ++ [Ev.delayEv 1000, Ev.digitalWriteEv LED_BLUE_PIN false])
  else
    (s, [])

/-- `monitoreoHall()` (state 6): when the magnetic-field pin is HIGH, report
and return to state 2. -/
def monitoreoHall (now : Nat) (pinHigh : Bool) (s : Sys) : Sys × List Ev :=
  if pinHigh then
    ({ s with currentState := 2, stateChangeTime := now },
     [Ev.lcdClear, Ev.lcdPrintS "Hall Activo", Ev.digitalWriteEv LED_BLUE_PIN true]
       ++ alarmSoundEvs ++ [Ev.delayEv 1000, Ev.digitalWriteEv LED_BLUE_PIN false])
  else
    (s, [])

/-- The recovery test of the `while (true)` loop in `alarma()`:
`t >= 10 && t <= 40 && h >= 5 && h <= 60`. -/
def alarmaRecovered (r : Reading) : Bool :=
  decide (10 ≤ r.t) && decide (r.t ≤ 40) && decide (5 ≤ r.h) && decide (r.h ≤ 60)

/-- The `while (true)` loop of `alarma()`, as a fuel-indexed search over the
stream of successive DHT readings: returns the index of the first reading
passing the recovery test, if one occurs within `fuel` iterations. -/
def alarmaLoopAux (stream : Nat → Reading) : Nat → Option Nat
  | 0 => none
  | fuel + 1 =>
    if alarmaRecovered (stream 0) then some 0
    else (alarmaLoopAux (fun i => stream (i + 1)) fuel).map (· + 1)

/-- The effects `alarma()` performs before entering its loop: red LED on,
alarm sound, critical-alert message (note the third-row cursor write). -/
def alarmaEntryEvs : List Ev :=
  [Ev.digitalWriteEv LED_RED_PIN true] ++ alarmSoundEvs
    ++ [Ev.lcdClear, Ev.lcdPrintS "ALERTA CRITICA!", Ev.lcdSetCursor 0 1,
        Ev.lcdPrintS "T o H fuera de", Ev.lcdSetCursor 0 2, Ev.lcdPrintS "rango seguro!"]

/-- `alarma()` (state 4): blocking handler.  `stream n` is the pair of DHT
readings of the `n`-th loop iteration; `none` means the loop has not
terminated within `fuel` iterations.  On termination: red LED off, buzzer
silenced, back to state 1 (monitoreo ambiental). -/
def alarma (now : Nat) (stream : Nat → Reading) (fuel : Nat) (s : Sys) :
    Option (Sys × List Ev) :=
  match alarmaLoopAux stream fuel with
  | none => none
  | some _ =>
    some ({ s with currentState := 1, stateChangeTime := now },
          alarmaEntryEvs ++ [Ev.digitalWriteEv LED_RED_PIN false, Ev.noToneEv])

/-- One step of the whole system: either a key press handled by `loop()`, or
the `currentState` dispatch switch running the handler for the current state
with some sensor input.  (The key-press step is available in every state,
matching a `loop()` body that checks the keypad before the dispatch.) -/
inductive Step : Sys → Sys → Prop where
  | key (now : Nat) (k : Char) (s : Sys) : Step s (processKey now s k).1
  | amb (now : Nat) (r : Reading) (s : Sys) (h : s.currentState = 1) :
      Step s (monitoreoAmbiental now r s).1
  | evl (now : Nat) (lux : ℚ) (s : Sys) (h : s.currentState = 2) :
      Step s (monitorEventos now lux s).1
  | alr (now : Nat) (lux : ℚ) (s : Sys) (h : s.currentState = 3) :
      Step s (alerta now lux s).1
  | alm (now fuel : Nat) (stream : Nat → Reading) (s s' : Sys) (evs : List Ev)
      (h : s.currentState = 4) (he : alarma now stream fuel s = some (s', evs)) :
      Step s s'
  | infr (now : Nat) (b : Bool) (s : Sys) (h : s.currentState = 5) :
      Step s (monitoreoInfrarrojo now b s).1
  | hal (now : Nat) (b : Bool) (s : Sys) (h : s.currentState = 6) :
      Step s (monitoreoHall now b s).1

/-- Reachability from the initial (locked) state. -/
def Reachable (s : Sys) : Prop :=
  Relation.ReflTransGen Step sysInit s

/-! ## Basic lemmas about the access gate -/

theorem processKeys_nil (now : Nat) (s : Sys) : processKeys now s [] = s := rfl

theorem processKeys_cons (now : Nat) (s : Sys) (k : Char) (ks : List Char) :
    processKeys now s (k :: ks) = processKeys now (processKey now s k).1 ks := rfl

theorem processKeys_append (now : Nat) (s : Sys) (a b : List Char) :
    processKeys now s (a ++ b) = processKeys now (processKeys now s a) b := by
  simp [processKeys, List.foldl_append]

/-- A key other than the submit and clear keys takes the digit branch:
appended while the buffer is short, dropped once it has 4 characters. -/
theorem processKey_other (now : Nat) (s : Sys) (k : Char)
    (hk1 : k ≠ '#') (hk2 : k ≠ '*') :
    processKey now s k =
      if s.inputPassword.length < 4 then
        ({ s with inputPassword := s.inputPassword ++ [k] },
         [Ev.lcdSetCursor 0 1, Ev.lcdPrintS (getAsterisks (s.inputPassword.length + 1))])
      else (s, []) := by
  simp [processKey, hk1, hk2]

/-- Running a block of non-submit, non-clear keys only fills the PIN buffer
up to 4 characters; nothing else changes. -/
theorem processKeys_other (now : Nat) (ds : List Char) (s : Sys)
    (hd : ∀ k ∈ ds, k ≠ '#' ∧ k ≠ '*') :
    processKeys now s ds =
      { s with inputPassword :=
          s.inputPassword ++ ds.take (4 - s.inputPassword.length) } := by
  induction ds generalizing s with
  | nil => simp [processKeys]
  | cons k ds ih =>
    have hk := hd k (by simp)
    have hrest : ∀ x ∈ ds, x ≠ '#' ∧ x ≠ '*' := fun x hx => hd x (by simp [hx])
    rw [processKeys_cons, processKey_other now s k hk.1 hk.2]
    rcases Nat.lt_or_ge s.inputPassword.length 4 with hlt | hge
    · rw [if_pos hlt, ih _ hrest]
      have h4 : 4 - s.inputPassword.length = (4 - (s.inputPassword.length + 1)) + 1 := by
        omega
      simp [h4, List.take_succ_cons]
    · rw [if_neg (by omega), ih _ hrest]
      have h4 : 4 - s.inputPassword.length = 0 := by omega
      simp [h4]

/-- A failed submission below the retry limit: error message, counter
incremented, buffer cleared, everything else untouched. -/
theorem processKey_submit_fail (now : Nat) (s : Sys)
    (hfail : ¬(s.inputPassword.length = 4 ∧ s.inputPassword = CORRECT_PASSWORD))
    (hcnt : s.attemptCount + 1 < MAX_ATTEMPTS) :
    processKey now s '#' =
      ({ s with inputPassword := [], attemptCount := s.attemptCount + 1 },
       [Ev.lcdClear, Ev.lcdPrintS "Error intento ", Ev.lcdPrintN (s.attemptCount + 1)]) := by
  rw [processKey, if_pos rfl, if_neg hfail]
  simp only []
  rw [if_neg (by omega)]

/-- A failed submission that reaches the retry limit: the lockout sequence
runs and `reset()` clears the session; the state code is untouched. -/
theorem processKey_submit_lockout (now : Nat) (s : Sys)
    (hfail : ¬(s.inputPassword.length = 4 ∧ s.inputPassword = CORRECT_PASSWORD))
    (hcnt : MAX_ATTEMPTS ≤ s.attemptCount + 1) :
    (processKey now s '#').1 = { s with inputPassword := [], attemptCount := 0 } ∧
    Ev.lcdPrintS "Bloqueado" ∈ (processKey now s '#').2 ∧
    Ev.lcdPrintN (s.attemptCount + 1) ∈ (processKey now s '#').2 := by
  rw [processKey, if_pos rfl, if_neg hfail]
  simp only []
  rw [if_pos (by omega)]
  simp

/-! ## Which state codes each handler can produce -/

theorem processKey_state (now : Nat) (s : Sys) (k : Char) :
    (processKey now s k).1.currentState = 1 ∨
    (processKey now s k).1.currentState = s.currentState := by
  unfold processKey
  split_ifs
  all_goals try simp
  all_goals (split <;> simp)

theorem monitoreoAmbiental_state (now : Nat) (r : Reading) (s : Sys) :
    (monitoreoAmbiental now r s).1.currentState = 4 ∨
    (monitoreoAmbiental now r s).1.currentState = 2 ∨
    (monitoreoAmbiental now r s).1.currentState = s.currentState := by
  unfold monitoreoAmbiental
  split_ifs <;> simp

theorem monitorEventos_state (now : Nat) (lux : ℚ) (s : Sys) :
    (monitorEventos now lux s).1.currentState = 3 ∨
    (monitorEventos now lux s).1.currentState = 1 ∨
    (monitorEventos now lux s).1.currentState = s.currentState := by
  unfold monitorEventos
  split_ifs <;> simp

theorem alerta_state (now : Nat) (lux : ℚ) (s : Sys) :
    (alerta now lux s).1.currentState = 2 ∨
    (alerta now lux s).1.currentState = s.currentState := by
  unfold alerta
  split_ifs <;> simp

theorem monitoreoInfrarrojo_state (now : Nat) (b : Bool) (s : Sys) :
    (monitoreoInfrarrojo now b s).1.currentState = 2 ∨
    (monitoreoInfrarrojo now b s).1.currentState = s.currentState := by
  unfold monitoreoInfrarrojo
  split_ifs <;> simp

theorem monitoreoHall_state (now : Nat) (b : Bool) (s : Sys) :
    (monitoreoHall now b s).1.currentState = 2 ∨
    (monitoreoHall now b s).1.currentState = s.currentState := by
  unfold monitoreoHall
  split_ifs <;> simp

theorem alarma_some (now : Nat) (stream : Nat → Reading) (fuel : Nat)
    (s s' : Sys) (evs : List Ev) (he : alarma now stream fuel s = some (s', evs)) :
    s' = { s with currentState := 1, stateChangeTime := now } ∧
    evs = alarmaEntryEvs ++ [Ev.digitalWriteEv LED_RED_PIN false, Ev.noToneEv] := by
  unfold alarma at he
  cases hl : alarmaLoopAux stream fuel with
  | none => rw [hl] at he; exact absurd he (by simp)
  | some i =>
    rw [hl] at he
    simp only [Option.some.injEq, Prod.mk.injEq] at he
    exact ⟨he.1.symm, he.2.symm⟩

theorem step_preserves_le_four (s s' : Sys) (hs : Step s s')
    (hinv : s.currentState ≤ 4) : s'.currentState ≤ 4 := by
  cases hs with
  | key now k s => rcases processKey_state now s k with h | h <;> omega
  | amb now r s h => rcases monitoreoAmbiental_state now r s with hh | hh | hh <;> omega
  | evl now lux s h => rcases monitorEventos_state now lux s with hh | hh | hh <;> omega
  | alr now lux s h => rcases alerta_state now lux s with hh | hh <;> omega
  | alm now fuel stream s s' evs h he =>
    have := (alarma_some now stream fuel s s' evs he).1
    subst this
    simp
  | infr now b s h => rcases monitoreoInfrarrojo_state now b s with hh | hh <;> omega
  | hal now b s h => rcases monitoreoHall_state now b s with hh | hh <;> omega

/-! ## The alarm loop terminates exactly on an in-range reading -/

theorem alarmaLoopAux_some_recovered (stream : Nat → Reading) (fuel : Nat) :
    ∀ i, alarmaLoopAux stream fuel = some i → alarmaRecovered (stream i) = true := by
  induction fuel generalizing stream with
  | zero => intro i h; exact absurd h (by simp [alarmaLoopAux])
  | succ fuel ih =>
    intro i h
    rw [alarmaLoopAux] at h
    by_cases h0 : alarmaRecovered (stream 0) = true
    · rw [if_pos h0] at h
      cases h
      exact h0
    · rw [if_neg h0] at h
      rcases Option.map_eq_some'.mp h with ⟨j, hj, hji⟩
      subst hji
      exact ih (fun i => stream (i + 1)) j hj

theorem alarmaLoopAux_some_of_recovered (stream : Nat → Reading) (n : Nat)
    (h : alarmaRecovered (stream n) = true) :
    ∃ i, alarmaLoopAux stream (n + 1) = some i := by
  induction n generalizing stream with
  | zero => exact ⟨0, by rw [alarmaLoopAux, if_pos h]⟩
  | succ n ih =>
    by_cases h0 : alarmaRecovered (stream 0) = true
    · exact ⟨0, by rw [alarmaLoopAux, if_pos h0]⟩
    · rcases ih (fun i => stream (i + 1)) h with ⟨i, hi⟩
      refine ⟨i + 1, ?_⟩
      rw [alarmaLoopAux, if_neg h0, hi]
      rfl

/-! ## Claims -/

/-- C1 (counterexample): submitting the correct 4-digit PIN from the locked
state does NOT clear the candidate PIN — `loop()` never resets
`inputPassword` on the success path, so it still holds the secret. -/
theorem unlock_keeps_pin_cex :
    (processKey 5 (Sys.mk CORRECT_PASSWORD 0 0 0) '#').1.inputPassword ≠ [] := by
  decide

/-- C1 (amended): submitting the correct 4-digit PIN while locked transitions
the state code from 0 (Locked) to 1 (Environmental) and resets the state
timer to the current time, but leaves the access session untouched:
`candidatePin` keeps the secret and `attemptCount` is unchanged. -/
theorem unlock_transitions_to_environmental (now : Nat) (s : Sys)
    (hlock : s.currentState = 0)
    (hlen : s.inputPassword.length = 4)
    (heq : s.inputPassword = CORRECT_PASSWORD) :
    (processKey now s '#').1 = { s with currentState := 1, stateChangeTime := now } := by
  rw [processKey, if_pos rfl, if_pos ⟨hlen, heq⟩]

theorem unlock_transitions_to_environmental_witness :
    (processKey 5 (Sys.mk CORRECT_PASSWORD 0 0 0) '#').1 =
      { Sys.mk CORRECT_PASSWORD 0 0 0 with currentState := 1, stateChangeTime := 5 } :=
  unlock_transitions_to_environmental 5 (Sys.mk CORRECT_PASSWORD 0 0 0) rfl (by decide) rfl

/-- C2 (counterexample): while locked, the key `A` — which is neither a digit
nor `#` nor `*` — is NOT ignored: it is appended to the candidate PIN. -/
theorem nondigit_key_not_ignored_cex :
    (processKey 0 sysInit 'A').1.inputPassword ≠ sysInit.inputPassword := by
  decide

/-- C2 (amended): while locked, every key other than `#` and `*` (letters
`A`-`D` included) is treated like a digit: appended to the candidate PIN when
its length is below 4 (with a masked redraw), and ignored — leaving the
PIN, the attempt count, the state and the display untouched — only when the
PIN already has length 4. -/
theorem locked_nonspecial_key_behaviour (now : Nat) (s : Sys) (k : Char)
    (hk1 : k ≠ '#') (hk0 : k ≠ '*') (hlock : s.currentState = 0) :
    (s.inputPassword.length < 4 →
       (processKey now s k).1.inputPassword = s.inputPassword ++ [k] ∧
       (processKey now s k).1.attemptCount = s.attemptCount ∧
       (processKey now s k).1.currentState = s.currentState) ∧
    (s.inputPassword.length = 4 →
       (processKey now s k).1 = s ∧ (processKey now s k).2 = []) := by
  rw [processKey_other now s k hk1 hk0]
  constructor
  · intro hlt
    rw [if_pos hlt]
    simp
  · intro h4
    rw [if_neg (by omega)]
    exact ⟨rfl, rfl⟩

theorem locked_nonspecial_key_behaviour_witness :
    (processKey 0 (Sys.mk [] 0 0 0) 'A').1.inputPassword = ['A'] := by
  have h := (locked_nonspecial_key_behaviour 0 (Sys.mk [] 0 0 0) 'A'
      (by decide) (by decide) rfl).1 (by decide)
  simpa using h.1

/-- C6: submitting a wrong 4-character PIN while locked (below the retry
limit) increments the attempt counter by exactly 1, clears the candidate
PIN, and leaves the system in the locked state. -/
theorem wrong_pin_submit_increments (now : Nat) (s : Sys)
    (hlock : s.currentState = 0)
    (hlen : s.inputPassword.length = 4)
    (hne : s.inputPassword ≠ CORRECT_PASSWORD)
    (hcnt : s.attemptCount + 1 < MAX_ATTEMPTS) :
    (processKey now s '#').1.attemptCount = s.attemptCount + 1 ∧
    (processKey now s '#').1.inputPassword = [] ∧
    (processKey now s '#').1.currentState = 0 := by
  rw [processKey_submit_fail now s (fun h => hne h.2) hcnt]
  exact ⟨rfl, rfl, hlock⟩

theorem wrong_pin_submit_increments_witness :
    (processKey 7 (Sys.mk ['1', '2', '3', '4'] 0 0 0) '#').1.attemptCount = 0 + 1 ∧
    (processKey 7 (Sys.mk ['1', '2', '3', '4'] 0 0 0) '#').1.inputPassword = [] ∧
    (processKey 7 (Sys.mk ['1', '2', '3', '4'] 0 0 0) '#').1.currentState = 0 :=
  wrong_pin_submit_increments 7 (Sys.mk ['1', '2', '3', '4'] 0 0 0) rfl (by decide)
    (by decide) (by decide)

/-- C7: in the Environmental state, an out-of-range reading (temperature
below 10 or above 40, or humidity below 5 or above 60) sends the system to
the Alarm state (code 4) at once — for every value of the clock, hence
independently of the elapsed time — resetting the state timer and performing
no display write. -/
theorem out_of_range_goes_to_alarm (now : Nat) (r : Reading) (s : Sys)
    (hst : s.currentState = 1)
    (hout : r.t < 10 ∨ r.t > 40 ∨ r.h < 5 ∨ r.h > 60) :
    monitoreoAmbiental now r s =
      ({ s with currentState := 4, stateChangeTime := now }, []) := by
  rw [monitoreoAmbiental, if_pos hout]

theorem out_of_range_goes_to_alarm_witness :
    monitoreoAmbiental 17 (Reading.mk 45 30) (Sys.mk [] 0 1 0) =
      ({ Sys.mk [] 0 1 0 with currentState := 4, stateChangeTime := 17 }, []) :=
  out_of_range_goes_to_alarm 17 (Reading.mk 45 30) (Sys.mk [] 0 1 0) rfl
    (by norm_num)

/-- C8: in the EventsLight state (code 2), once at least 3000 ms have elapsed
since the last transition the handler moves to Alert (code 3) when the
computed lux is above 700 or below 200 and back to Environmental (code 1)
otherwise, resetting the state timer; below 3000 ms it neither transitions
nor touches the display. -/
theorem events_light_debounced_branch (now : Nat) (lux : ℚ) (s : Sys)
    (hst : s.currentState = 2) :
    (3000 ≤ now - s.stateChangeTime →
       (monitorEventos now lux s).1.currentState =
         (if lux > 700 ∨ lux < 200 then 3 else 1) ∧
       (monitorEventos now lux s).1.stateChangeTime = now) ∧
    (now - s.stateChangeTime < 3000 →
       monitorEventos now lux s = (s, [])) := by
  constructor
  · intro hel
    rw [monitorEventos, if_pos hel]
    by_cases hl : lux > 700 ∨ lux < 200
    · rw [if_pos hl, if_pos hl]
      exact ⟨rfl, rfl⟩
    · rw [if_neg hl, if_neg hl]
      exact ⟨rfl, rfl⟩
  · intro hel
    rw [monitorEventos, if_neg (by omega)]

theorem events_light_debounced_branch_witness :
    (monitorEventos 3000 750 (Sys.mk [] 0 2 0)).1.currentState = 3 := by
  have h := (events_light_debounced_branch 3000 750 (Sys.mk [] 0 2 0) rfl).1 (by norm_num)
  rw [h.1]
  norm_num

/-- C9: feeding any sequence of non-submit, non-clear keys to the gate never
pushes the candidate PIN beyond 4 characters, and once it has exactly 4
characters any further such key is silently dropped, leaving the whole state
(and the display) unchanged. -/
theorem pin_length_never_exceeds_four (now : Nat) (ds : List Char) (s : Sys)
    (hd : ∀ k ∈ ds, k ≠ '#' ∧ k ≠ '*')
    (hlock : s.currentState = 0)
    (hlen : s.inputPassword.length ≤ 4) :
    (processKeys now s ds).inputPassword.length ≤ 4 ∧
    (s.inputPassword.length = 4 → ∀ k, k ≠ '#' → k ≠ '*' →
       (processKey now s k).1 = s ∧ (processKey now s k).2 = []) := by
  constructor
  · rw [processKeys_other now ds s hd]
    simp only [List.length_append, List.length_take]
    omega
  · intro h4 k hk1 hk0
    rw [processKey_other now s k hk1 hk0, if_neg (by omega)]
    exact ⟨rfl, rfl⟩

theorem pin_length_never_exceeds_four_witness :
    (processKeys 0 (Sys.mk [] 0 0 0)
        ['1', '2', '3', '4', '5', '6']).inputPassword.length ≤ 4 :=
  (pin_length_never_exceeds_four 0 ['1', '2', '3', '4', '5', '6'] (Sys.mk [] 0 0 0)
    (by decide) rfl (by decide)).1

/-- C10: pressing `#` while locked with a candidate PIN shorter than 4
characters takes the failure branch: the PIN is cleared and the error message
shows attempt number `attemptCount + 1`; below the retry limit the stored
counter becomes `attemptCount + 1`, and when the incremented counter reaches
the limit the lockout sequence runs (so short submissions count towards the
lockout). -/
theorem short_pin_submit_is_failed_attempt (now : Nat) (s : Sys)
    (hlock : s.currentState = 0)
    (hlen : s.inputPassword.length < 4) :
    (processKey now s '#').1.inputPassword = [] ∧
    Ev.lcdPrintS "Error intento " ∈ (processKey now s '#').2 ∧
    Ev.lcdPrintN (s.attemptCount + 1) ∈ (processKey now s '#').2 ∧
    (s.attemptCount + 1 < MAX_ATTEMPTS →
       (processKey now s '#').1.attemptCount = s.attemptCount + 1) ∧
    (MAX_ATTEMPTS ≤ s.attemptCount + 1 →
       (processKey now s '#').1.attemptCount = 0 ∧
       Ev.lcdPrintS "Bloqueado" ∈ (processKey now s '#').2) := by
  have hfail : ¬(s.inputPassword.length = 4 ∧ s.inputPassword = CORRECT_PASSWORD) :=
    fun h => by omega
  rcases Nat.lt_or_ge (s.attemptCount + 1) MAX_ATTEMPTS with hlt | hge
  · rw [processKey_submit_fail now s hfail hlt]
    refine ⟨rfl, by simp, by simp, fun _ => rfl, fun h => absurd h (by omega)⟩
  · rw [processKey, if_pos rfl, if_neg hfail]
    simp only []
    rw [if_pos (by omega)]
    refine ⟨rfl, by simp, by simp, fun h => absurd h (by omega), fun _ => ⟨rfl, by simp⟩⟩

theorem short_pin_submit_is_failed_attempt_witness :
    (processKey 0 (Sys.mk ['1'] 0 0 0) '#').1.inputPassword = [] ∧
    (processKey 0 (Sys.mk ['1'] 0 0 0) '#').1.attemptCount = 1 := by
  have h := short_pin_submit_is_failed_attempt 0 (Sys.mk ['1'] 0 0 0) rfl (by decide)
  exact ⟨h.1, h.2.2.2.1 (by decide)⟩

/-- C5: from the initial locked state, three consecutive failed submissions
(each preceded by an arbitrary block of PIN keys whose first four characters
are not the secret) run the lockout sequence on the third `#` and leave the
gate reset: attempt counter 0, candidate PIN empty, still locked. -/
theorem three_failed_submissions_lockout (now : Nat) (d1 d2 d3 : List Char)
    (hd1 : ∀ k ∈ d1, k ≠ '#' ∧ k ≠ '*')
    (hd2 : ∀ k ∈ d2, k ≠ '#' ∧ k ≠ '*')
    (hd3 : ∀ k ∈ d3, k ≠ '#' ∧ k ≠ '*')
    (hf1 : d1.take 4 ≠ CORRECT_PASSWORD)
    (hf2 : d2.take 4 ≠ CORRECT_PASSWORD)
    (hf3 : d3.take 4 ≠ CORRECT_PASSWORD) :
    (processKey now (processKeys now sysInit (d1 ++ '#' :: (d2 ++ '#' :: d3))) '#').1.attemptCount = 0 ∧
    (processKey now (processKeys now sysInit (d1 ++ '#' :: (d2 ++ '#' :: d3))) '#').1.inputPassword = [] ∧
    (processKey now (processKeys now sysInit (d1 ++ '#' :: (d2 ++ '#' :: d3))) '#').1.currentState = 0 ∧
    Ev.lcdPrintS "Bloqueado" ∈
      (processKey now (processKeys now sysInit (d1 ++ '#' :: (d2 ++ '#' :: d3))) '#').2 := by
  have hs1 : processKeys now sysInit d1 = Sys.mk (d1.take 4) 0 0 0 := by
    rw [processKeys_other now d1 sysInit hd1]
    simp [sysInit]
  have step1 : processKeys now sysInit (d1 ++ '#' :: (d2 ++ '#' :: d3)) =
      processKeys now (processKey now (Sys.mk (d1.take 4) 0 0 0) '#').1 (d2 ++ '#' :: d3) := by
    rw [processKeys_append, hs1, processKeys_cons]
  have hfail1 : ¬((Sys.mk (d1.take 4) 0 0 0).inputPassword.length = 4 ∧
      (Sys.mk (d1.take 4) 0 0 0).inputPassword = CORRECT_PASSWORD) :=
    fun h => hf1 h.2
  have hsub1 : (processKey now (Sys.mk (d1.take 4) 0 0 0) '#').1 = Sys.mk [] 1 0 0 := by
    rw [processKey_submit_fail now _ hfail1 (by simp [MAX_ATTEMPTS])]
  have hs2 : processKeys now (Sys.mk [] 1 0 0) d2 = Sys.mk (d2.take 4) 1 0 0 := by
    rw [processKeys_other now d2 _ hd2]
    simp
  have hfail2 : ¬((Sys.mk (d2.take 4) 1 0 0).inputPassword.length = 4 ∧
      (Sys.mk (d2.take 4) 1 0 0).inputPassword = CORRECT_PASSWORD) :=
    fun h => hf2 h.2
  have hsub2 : (processKey now (Sys.mk (d2.take 4) 1 0 0) '#').1 = Sys.mk [] 2 0 0 := by
    rw [processKey_submit_fail now _ hfail2 (by simp [MAX_ATTEMPTS])]
  have hs3 : processKeys now (Sys.mk [] 2 0 0) d3 = Sys.mk (d3.take 4) 2 0 0 := by
    rw [processKeys_other now d3 _ hd3]
    simp
  have hall : processKeys now sysInit (d1 ++ '#' :: (d2 ++ '#' :: d3)) =
      Sys.mk (d3.take 4) 2 0 0 := by
    rw [step1, hsub1, processKeys_append, hs2, processKeys_cons, hsub2, hs3]
  rw [hall]
  have hfail3 : ¬((Sys.mk (d3.take 4) 2 0 0).inputPassword.length = 4 ∧
      (Sys.mk (d3.take 4) 2 0 0).inputPassword = CORRECT_PASSWORD) :=
    fun h => hf3 h.2
  rcases processKey_submit_lockout now (Sys.mk (d3.take 4) 2 0 0) hfail3
      (by simp [MAX_ATTEMPTS]) with ⟨h1, h2, h3⟩
  rw [h1]
  exact ⟨rfl, rfl, rfl, h2⟩

theorem three_failed_submissions_lockout_witness :
    (processKey 0 (processKeys 0 sysInit
        (['1', '1', '1', '1'] ++ '#' :: (['2', '2', '2', '2'] ++ '#' :: ['3', '3', '3', '3']))) '#').1.attemptCount = 0 ∧
    (processKey 0 (processKeys 0 sysInit
        (['1', '1', '1', '1'] ++ '#' :: (['2', '2', '2', '2'] ++ '#' :: ['3', '3', '3', '3']))) '#').1.inputPassword = [] ∧
    (processKey 0 (processKeys 0 sysInit
        (['1', '1', '1', '1'] ++ '#' :: (['2', '2', '2', '2'] ++ '#' :: ['3', '3', '3', '3']))) '#').1.currentState = 0 ∧
    Ev.lcdPrintS "Bloqueado" ∈
      (processKey 0 (processKeys 0 sysInit
        (['1', '1', '1', '1'] ++ '#' :: (['2', '2', '2', '2'] ++ '#' :: ['3', '3', '3', '3']))) '#').2 :=
  three_failed_submissions_lockout 0 ['1', '1', '1', '1'] ['2', '2', '2', '2'] ['3', '3', '3', '3']
    (by decide) (by decide) (by decide) (by decide) (by decide) (by decide)

/-- C3: every state reachable from the initial locked state under keypad
input and sensor readings has a state code in {0, 1, 2, 3, 4} — Locked,
Environmental, EventsLight, Alert, Alarm; the Infrared (5) and Hall (6)
states are never entered. -/
theorem reachable_never_infrared_or_hall (s : Sys) (hr : Reachable s) :
    s.currentState = 0 ∨ s.currentState = 1 ∨ s.currentState = 2 ∨
    s.currentState = 3 ∨ s.currentState = 4 := by
  have hle : s.currentState ≤ 4 := by
    induction hr with
    | refl => exact Nat.le_of_lt_succ (by simp [sysInit])
    | tail hab hbc ih => exact step_preserves_le_four _ _ hbc ih
  omega

theorem reachable_never_infrared_or_hall_witness :
    sysInit.currentState = 0 ∨ sysInit.currentState = 1 ∨ sysInit.currentState = 2 ∨
    sysInit.currentState = 3 ∨ sysInit.currentState = 4 :=
  reachable_never_infrared_or_hall sysInit Relation.ReflTransGen.refl

/-- C4: the Alarm handler's blocking loop terminates — for some iteration
bound the embedding returns a result — exactly when some reading in the
stream has temperature in [10, 40] and humidity in [5, 60]; and whenever it
returns, the system is back in the Environmental state (code 1) with the
timer reset, the session untouched, the red LED switched off and the buzzer
silenced. -/
theorem alarma_terminates_iff_recovery (now : Nat) (stream : Nat → Reading) (s : Sys)
    (hst : s.currentState = 4) :
    ((∃ fuel out, alarma now stream fuel s = some out) ↔
       (∃ n, 10 ≤ (stream n).t ∧ (stream n).t ≤ 40 ∧
             5 ≤ (stream n).h ∧ (stream n).h ≤ 60)) ∧
    (∀ fuel s' evs, alarma now stream fuel s = some (s', evs) →
       s'.currentState = 1 ∧ s'.stateChangeTime = now ∧
       s'.inputPassword = s.inputPassword ∧ s'.attemptCount = s.attemptCount ∧
       Ev.digitalWriteEv LED_RED_PIN false ∈ evs ∧ Ev.noToneEv ∈ evs) := by
  constructor
  · constructor
    · rintro ⟨fuel, out, hout⟩
      unfold alarma at hout
      cases hl : alarmaLoopAux stream fuel with
      | none => rw [hl] at hout; exact absurd hout (by simp)
      | some i =>
        have hrec := alarmaLoopAux_some_recovered stream fuel i hl
        refine ⟨i, ?_⟩
        simpa [alarmaRecovered, decide_eq_true_eq, and_assoc] using hrec
    · rintro ⟨n, hn1, hn2, hn3, hn4⟩
      have hrec : alarmaRecovered (stream n) = true := by
        simp only [alarmaRecovered, Bool.and_eq_true, decide_eq_true_eq]
        exact ⟨⟨⟨hn1, hn2⟩, hn3⟩, hn4⟩
      rcases alarmaLoopAux_some_of_recovered stream n hrec with ⟨i, hi⟩
      refine ⟨n + 1,
        ({ s with currentState := 1, stateChangeTime := now },
         alarmaEntryEvs ++ [Ev.digitalWriteEv LED_RED_PIN false, Ev.noToneEv]), ?_⟩
      unfold alarma
      rw [hi]
  · intro fuel s' evs he
    rcases alarma_some now stream fuel s s' evs he with ⟨h1, h2⟩
    subst h1
    subst h2
    exact ⟨rfl, rfl, rfl, rfl, by simp, by simp⟩

theorem alarma_terminates_iff_recovery_witness :
    ∃ fuel out, alarma 9 (fun _ => Reading.mk 20 30) fuel (Sys.mk [] 0 4 0) = some out :=
  ((alarma_terminates_iff_recovery 9 (fun _ => Reading.mk 20 30)
      (Sys.mk [] 0 4 0) rfl).1).mpr ⟨0, by norm_num⟩

end Documentacion
